import Mathlib

/-!
# Verification of the polit crawl pipeline

A shallow embedding of the core of the `polit` scraper: the producer/consumer
link queue (`src/services/linkQueue.ts`), the rate-limited retrying navigator
(`src/services/browser.ts`), the generic retry helper (`src/utils.ts`), the
collection loop (`src/linkScraper.ts`) and the detail batch processor
(`src/detailsScraper.ts`).

Modelling conventions:
* JavaScript numbers that hold durations, averages and rates are modelled as
  exact rationals (`ℚ`); the quantities involved in the properties below are
  small integers or simple fractions where binary64 arithmetic is exact.
* A JavaScript `Set` of strings is a `Finset String`; an array is a `List`.
* Thrown JavaScript error values are an inductive `JsError` mirroring the
  error taxonomy of `src/types.ts` (`NetworkError`, `ParseError`,
  `ScrapingError`, plus plain `Error`).
* Asynchronous effects (timer delays, rate-limit token waits) are recorded as
  explicit traces; the interleaving itself is not modelled, only the
  per-operation state transformations, which the source performs atomically
  between suspension points.
-/

namespace Polit

/-- JavaScript error values, mirroring `src/types.ts`:
`NetworkError` carries a URL and a cause, `ParseError` carries a URL,
`ScrapingError` carries a message, a context string and a cause, and
`plain` is a bare `new Error(message)`. -/
inductive JsError where
  | plain (message : String)
  | network (url : String) (cause : JsError)
  | parse (url : String)
  | scraping (message : String) (context : String) (cause : JsError)
deriving DecidableEq, Repr

/-- Whether an error value is a typed `NetworkError`. -/
def JsError.isNetwork : JsError → Bool
  | .network _ _ => true
  | _ => false

/-- Decidable equality of `Except` results, for evaluating the model on
concrete inputs. -/
instance instDecidableEqExcept {ε α : Type} [DecidableEq ε] [DecidableEq α] :
    DecidableEq (Except ε α) := fun x y =>
  match x, y with
  | .ok a, .ok b =>
    match decEq a b with
    | isTrue h => isTrue (h ▸ rfl)
    | isFalse h => isFalse fun c => h (Except.ok.inj c)
  | .ok _, .error _ => isFalse fun c => Except.noConfusion c
  | .error _, .ok _ => isFalse fun c => Except.noConfusion c
  | .error a, .error b =>
    match decEq a b with
    | isTrue h => isTrue (h ▸ rfl)
    | isFalse h => isFalse fun c => h (Except.error.inj c)

/-- The JS `String.prototype.startsWith` test, as a prefix check on the
character sequences of the two strings. -/
def strStartsWith (s p : String) : Bool := p.data.isPrefixOf s.data

/-- The statistics record embedded in `LinkQueue` (`src/services/linkQueue.ts`,
interface `QueueStats`). `avgProcessingTime` is a JS number, modelled as `ℚ`. -/
structure QueueStats where
  processed : Nat
  failed : Nat
  avgProcessingTime : ℚ
deriving DecidableEq, Repr

/-- The state of a `LinkQueue` (`src/services/linkQueue.ts`): the pending
array `queue`, the in-flight set `processing`, the completion flag
`isComplete` and the statistics.  The event-emitter throttling state
(`lastEmitTime`) only gates logging and is not part of the model. -/
structure LinkQueue where
  queue : List String
  processing : Finset String
  isComplete : Bool
  stats : QueueStats
deriving DecidableEq

namespace LinkQueue

/-- The initial queue state produced by the constructor. -/
def init : LinkQueue :=
  { queue := [], processing := ∅, isComplete := false
    stats := { processed := 0, failed := 0, avgProcessingTime := 0 } }

/-- `LinkQueue.addLinks` (`src/services/linkQueue.ts` lines 35–46): filters out
links already in the in-flight set `processing`, then appends the rest to the
pending array.  (The throttled `links-available` emission is logging only.) -/
def addLinks (s : LinkQueue) (links : List String) : LinkQueue :=
  let newLinks := links.filter fun link => !(decide (link ∈ s.processing))
  { s with queue := s.queue ++ newLinks }

/-- `LinkQueue.calculateAdaptiveBatchSize` (`src/services/linkQueue.ts`
lines 107–130): if nothing has been processed yet, return `maxBatchSize`
unchanged; otherwise shrink by 20% when the success rate is below 0.8, by a
further 30% when the in-flight load exceeds `2 × maxBatchSize` (each floored,
minimum 1), and cap at the pending length.  The JS float constants `0.8` and
`0.7` are modelled as the exact rationals `4/5` and `7/10`. -/
def calculateAdaptiveBatchSize (s : LinkQueue) (maxBatchSize : Nat) : Nat :=
  if s.stats.processed = 0 then
    maxBatchSize
  else
    let successRate : ℚ :=
      (s.stats.processed : ℚ) / ((s.stats.processed : ℚ) + (s.stats.failed : ℚ))
    let processingLoad := s.processing.card
    let adjusted1 : Nat :=
      if successRate < 4/5 then max 1 (Nat.floor ((maxBatchSize : ℚ) * (4/5)))
      else maxBatchSize
    let adjusted2 : Nat :=
      if processingLoad > maxBatchSize * 2 then max 1 (Nat.floor ((adjusted1 : ℚ) * (7/10)))
      else adjusted1
    min adjusted2 s.queue.length

/-- `LinkQueue.getBatch` (`src/services/linkQueue.ts` lines 51–60): splice the
first `calculateAdaptiveBatchSize` items off the pending array, add each to
the in-flight set, and return them together with the new state. -/
def getBatch (s : LinkQueue) (maxBatchSize : Nat) : List String × LinkQueue :=
  let n := s.calculateAdaptiveBatchSize maxBatchSize
  let batch := s.queue.take n
  (batch,
    { s with queue := s.queue.drop n
             processing := batch.foldl (fun acc link => insert link acc) s.processing })

/-- `LinkQueue.markProcessed` (`src/services/linkQueue.ts` lines 65–77):
delete each link from the in-flight set; on success add the batch size to
`processed` first and then fold the elapsed time into the moving average
using the already-incremented count; on failure add the batch size to
`failed`. -/
def markProcessed (s : LinkQueue) (links : List String) (success : Bool)
    (processingTime : ℚ) : LinkQueue :=
  let processing := links.foldl (fun acc link => acc.erase link) s.processing
  if success then
    let processed := s.stats.processed + links.length
    { s with processing := processing
             stats := { processed := processed
                        failed := s.stats.failed
                        avgProcessingTime :=
                          (s.stats.avgProcessingTime * (processed : ℚ) + processingTime) /
                            ((processed : ℚ) + 1) } }
  else
    { s with processing := processing
             stats := { s.stats with failed := s.stats.failed + links.length } }

/-- `LinkQueue.markComplete` (`src/services/linkQueue.ts` lines 82–85):
sets the completion flag. -/
def markComplete (s : LinkQueue) : LinkQueue :=
  { s with isComplete := true }

/-- `LinkQueue.hasMore` (`src/services/linkQueue.ts` lines 90–92):
`queue.length > 0 || !isComplete || processing.size > 0`. -/
def hasMore (s : LinkQueue) : Bool :=
  decide (s.queue.length > 0) || !s.isComplete || decide (s.processing.card > 0)

/-- `LinkQueue.getStats` (`src/services/linkQueue.ts` lines 97–102):
a snapshot of queue size and statistics. -/
def getStats (s : LinkQueue) : Nat × QueueStats :=
  (s.queue.length, s.stats)

end LinkQueue

/-- One public mutating call on a `LinkQueue`, for reasoning about call
sequences. -/
inductive QueueOp where
  | addLinks (links : List String)
  | getBatch (maxBatchSize : Nat)
  | markProcessed (links : List String) (success : Bool) (processingTime : ℚ)
  | markComplete
deriving Repr

/-- Apply one queue operation to a state (the batch returned by `getBatch`
is determined by the state, so it is not part of the operation). -/
def applyOp (s : LinkQueue) : QueueOp → LinkQueue
  | .addLinks links => s.addLinks links
  | .getBatch n => (s.getBatch n).2
  | .markProcessed links ok t => s.markProcessed links ok t
  | .markComplete => s.markComplete

/-- Run a sequence of queue operations from a state. -/
def runOps (s : LinkQueue) (ops : List QueueOp) : LinkQueue :=
  ops.foldl applyOp s

/-! ## BrowserService navigation (`src/services/browser.ts`) -/

/-- The observable outcome of one navigation attempt inside
`BrowserService.navigateToUrl`: the pooled page turned out to be closed
(the code then throws `new Error('Page was closed before navigation')`),
`page.goto` threw `e`, or the navigation succeeded. -/
inductive NavAttempt where
  | closed
  | fail (e : JsError)
  | ok
deriving DecidableEq, Repr

/-- The error an attempt raises, if any: a closed page raises the plain
`'Page was closed before navigation'` error, a failed `goto` raises its own
error. -/
def NavAttempt.errorOf : NavAttempt → Option JsError
  | .closed => some (.plain "Page was closed before navigation")
  | .fail e => some e
  | .ok => none

/-- The trace of one `navigateToUrl` call: its result (`Except.error none`
models the degenerate `throw lastError` with `lastError` still `null`, which
only happens when `maxRetries = 0`), the number of rate-limit tokens
consumed, and the backoff delays (ms) slept between attempts. -/
structure NavRun where
  result : Except (Option JsError) Unit
  tokens : Nat
  delays : List Nat
deriving Repr

/-- The retry loop of `BrowserService.navigateToUrl`
(`src/services/browser.ts` lines 158–188), with `remaining` attempts left and
the current 1-based attempt number: each attempt consumes one rate-limit
token; a closed page or a `goto` failure is caught, and if attempts remain
the loop sleeps `min(1000 * 2^attempt, 10000)` ms and retries; when the last
attempt fails, the loop exits and rethrows the last error unchanged. -/
def navigateToUrlAux (att : Nat → NavAttempt) : Nat → Nat → NavRun
  | 0, _ => { result := .error none, tokens := 0, delays := [] }
  | 1, attempt =>
    match (att attempt).errorOf with
    | none => { result := .ok (), tokens := 1, delays := [] }
    | some e => { result := .error (some e), tokens := 1, delays := [] }
  | r + 2, attempt =>
    match (att attempt).errorOf with
    | none => { result := .ok (), tokens := 1, delays := [] }
    | some _ =>
      let d := min (1000 * 2 ^ attempt) 10000
      let rest := navigateToUrlAux att (r + 1) (attempt + 1)
      { result := rest.result, tokens := rest.tokens + 1, delays := d :: rest.delays }

/-- `BrowserService.navigateToUrl` with `maxRetries` attempts (the config
default is 3), starting at attempt 1. -/
def navigateToUrl (maxRetries : Nat) (att : Nat → NavAttempt) : NavRun :=
  navigateToUrlAux att maxRetries 1

/-- `BrowserService.executeOperation` (`src/services/browser.ts`
lines 193–221) when a `url` is supplied: navigate with retry, then run the
operation; either failure is rethrown unchanged (the page release in the
`finally` block swallows its own failures and does not alter the result). -/
def executeOperation {α : Type} (maxRetries : Nat) (att : Nat → NavAttempt)
    (operation : Except JsError α) : Except (Option JsError) α :=
  match (navigateToUrl maxRetries att).result with
  | .error e => .error e
  | .ok _ =>
    match operation with
    | .ok v => .ok v
    | .error e => .error (some e)

/-! ## The generic retry helper (`src/utils.ts`) -/

/-- `RetryConfig` from `src/types.ts` (the `timeout` field is unused by
`retry` itself and omitted).  Delays are JS numbers, modelled as `ℚ`. -/
structure RetryConfig where
  maxAttempts : Nat
  delayMs : ℚ
  backoffFactor : ℚ
deriving DecidableEq, Repr

/-- The loop of `retry` (`src/utils.ts` lines 23–53), with `remaining`
attempts left, the 1-based attempt counter, and the current backoff delay:
a successful attempt returns its value; a failure on the final attempt
throws a `ScrapingError` whose message reports the attempt count and which
carries the context and the last error; otherwise the loop sleeps
`currentDelay` and multiplies it by the backoff factor.  The second
component of the result is the list of delays slept. -/
def retryAux {α : Type} (op : Nat → Except JsError α) (context : String) (backoffFactor : ℚ) :
    Nat → Nat → ℚ → Except JsError α × List ℚ
  | 0, _, _ => (.error (.plain "Unexpected retry failure"), [])
  | r + 1, attempt, currentDelay =>
    match op attempt with
    | .ok v => (.ok v, [])
    | .error e =>
      if r = 0 then
        (.error (.scraping ("Failed after " ++ toString attempt ++ " attempts: " ++ context)
            context e), [])
      else
        let rest := retryAux op context backoffFactor r (attempt + 1)
          (currentDelay * backoffFactor)
        (rest.1, currentDelay :: rest.2)

/-- `retry(operation, config, context)` from `src/utils.ts`: run the
operation for up to `config.maxAttempts` attempts with exponential backoff. -/
def retry {α : Type} (op : Nat → Except JsError α) (config : RetryConfig)
    (context : String) : Except JsError α × List ℚ :=
  retryAux op context config.backoffFactor config.maxAttempts 1 config.delayMs

/-! ## The collection loop (`src/linkScraper.ts`) -/

/-- What fetching and parsing listing page number `n` yields: either a
propagated fetch/parse error, or the extracted link list together with the
optional next-page URL. -/
def PageResult : Type := Except JsError (List String × Option String)

/-- The `while` loop of `scrapeBookLinks` (`src/linkScraper.ts` lines 29–77),
driven by the per-page results and a fuel bound on the number of iterations
(the concrete runs below use enough fuel): a page error propagates out of
the loop; an empty link list breaks; otherwise the links are added to the
queue and the loop continues with the next page if one exists.  Returns the
loop's outcome and the queue state when it exits. -/
def collectPages (fetch : Nat → PageResult) :
    Nat → Nat → LinkQueue → Except JsError Unit × LinkQueue
  | 0, _, q => (.ok (), q)
  | fuel + 1, pageNum, q =>
    match fetch pageNum with
    | .error e => (.error e, q)
    | .ok (links, nextUrl) =>
      if links.length = 0 then (.ok (), q)
      else
        let q' := q.addLinks links
        match nextUrl with
        | none => (.ok (), q')
        | some _ => collectPages fetch fuel (pageNum + 1) q'

/-- `scrapeBookLinks` (`src/linkScraper.ts` lines 16–87): run the collection
loop from page 1; on normal completion `linkQueue.markComplete()` is called,
while an error from the loop is logged and rethrown by the `catch` block
without marking the queue complete; the `finally` block closes the browser
service on both paths (the Boolean records that the close ran). -/
def scrapeBookLinks (fetch : Nat → PageResult) (fuel : Nat) (q : LinkQueue) :
    Except JsError Unit × LinkQueue × Bool :=
  match collectPages fetch fuel 1 q with
  | (.ok (), q') => (.ok (), q'.markComplete, true)
  | (.error e, q') => (.error e, q', true)

/-! ## Detail extraction and batch processing (`src/detailsScraper.ts`) -/

/-- A `BookDetails` record (`src/types.ts`); the `scrapedAt` wall-clock
timestamp is outside the embedding and omitted. -/
structure BookDetails where
  title : String
  author : String
  recommendationsCount : Int
  url : String
deriving DecidableEq, Repr

/-- What the three parallel selector evaluations of `extractBookDetails`
observe on a detail page: the trimmed title and author texts, the trimmed
recommendations header text, and the computed count `children.length - 1`. -/
structure PageEval where
  title : String
  author : String
  recHeader : String
  recCount : Int
deriving DecidableEq, Repr

/-- `extractBookDetails` (`src/detailsScraper.ts` lines 17–60): an empty
title or author throws a `ParseError` for the URL; otherwise the
recommendation count is the observed count when the header starts with
`'To βιβλίο'` and 0 otherwise, a zero count yields `null` (no record), and
a nonzero count yields the populated record. -/
def extractBookDetails (url : String) (d : PageEval) :
    Except JsError (Option BookDetails) :=
  if d.title = "" || d.author = "" then
    .error (.parse url)
  else
    let recommendationsCount : Int :=
      if strStartsWith d.recHeader "To βιβλίο" then d.recCount else 0
    if recommendationsCount = 0 then
      .ok none
    else
      .ok (some { title := d.title, author := d.author,
                  recommendationsCount := recommendationsCount, url := url })

/-- The per-URL outcome observed by `processBatch` for one link: the
operation resolved with a record (`{success: true, details}`), resolved with
`null` details (`{success: true, skipped: true}`), or rejected
(`{success: false, url}`). -/
inductive UrlOutcome where
  | ok (details : BookDetails)
  | skipped
  | failed
deriving DecidableEq, Repr

/-- The accounting of `processBatch` (`src/detailsScraper.ts` lines 136–190)
on the happy path, given each link's outcome: successful results are
collected (and written to the sink in one batch call), failed URLs are
collected, and `markProcessed` is called once for the whole batch with
`success := (failedUrls.length = 0)` and the batch's elapsed time.  Returns
the updated queue and the records written to the sink. -/
def processBatchModel (links : List String) (outcome : String → UrlOutcome)
    (q : LinkQueue) (processingTime : ℚ) : LinkQueue × List BookDetails :=
  let successfulResults := links.filterMap fun u =>
    match outcome u with
    | .ok d => some d
    | _ => none
  let failedUrls := links.filter fun u => decide (outcome u = .failed)
  let q' := q.markProcessed links (decide (failedUrls.length = 0)) processingTime
  (q', successfulResults)

/-! ## Concrete scenario data used to evaluate the theorems below -/

/-- A navigation scenario: the pooled page is closed on attempt 1 and
`page.goto` throws on every later attempt. -/
def attClosedThenFail : Nat → NavAttempt :=
  fun i => if i = 1 then .closed else .fail (.plain "x")

/-- The per-attempt errors of `attClosedThenFail`. -/
def errClosedThenFail : Nat → JsError :=
  fun i => if i = 1 then .plain "Page was closed before navigation" else .plain "x"

/-- A retry scenario failing on attempts 1 and 2 and succeeding on attempt 3. -/
def opFailTwice : Nat → Except JsError Nat :=
  fun i => if i = 3 then .ok 7 else .error (.plain "x")

/-- A retry scenario failing on every attempt. -/
def opAlwaysFail : Nat → Except JsError Nat :=
  fun _ => .error (.plain "x")

/-- A concrete extracted record for URL `"g"`. -/
def goodRecord : BookDetails :=
  { title := "T", author := "A", recommendationsCount := 3, url := "g" }

/-- A batch scenario: URL `"g"` resolves with a record, every other URL
rejects. -/
def outcomeOneGood : String → UrlOutcome :=
  fun x => if x = "g" then .ok goodRecord else .failed

/-- A batch scenario in which every URL resolves with `null` details. -/
def outcomeAllSkipped : String → UrlOutcome :=
  fun _ => .skipped

/-! ## Shared lemmas -/

/-- Folding `insert` over a list of links adds exactly the list's elements
to a finite set. -/
theorem foldl_insert_eq_union (l : List String) (t : Finset String) :
    l.foldl (fun acc x => insert x acc) t = t ∪ l.toFinset := by
  induction l generalizing t with
  | nil => simp
  | cons a l ih =>
    simp only [List.foldl_cons, ih, List.toFinset_cons, Finset.union_insert,
      Finset.insert_union]

/-- `Math.floor(n * 0.8)` on a natural number is natural division `n * 4 / 5`. -/
theorem natFloor_mul_four_fifths (n : Nat) :
    Nat.floor ((n : ℚ) * (4 / 5)) = n * 4 / 5 := by
  have h : (n : ℚ) * (4 / 5) = ((n * 4 : Nat) : ℚ) / ((5 : Nat) : ℚ) := by
    push_cast; ring
  rw [h, Nat.floor_div_nat, Nat.floor_natCast]

/-- `Math.floor(n * 0.7)` on a natural number is natural division `n * 7 / 10`. -/
theorem natFloor_mul_seven_tenths (n : Nat) :
    Nat.floor ((n : ℚ) * (7 / 10)) = n * 7 / 10 := by
  have h : (n : ℚ) * (7 / 10) = ((n * 7 : Nat) : ℚ) / ((10 : Nat) : ℚ) := by
    push_cast; ring
  rw [h, Nat.floor_div_nat, Nat.floor_natCast]

/-- The adaptive batch size, written with natural-number division in place
of the rational floors of the definition. -/
theorem calculateAdaptiveBatchSize_eq (s : LinkQueue) (n : Nat) :
    s.calculateAdaptiveBatchSize n =
      if s.stats.processed = 0 then n
      else
        min
          (if s.processing.card > n * 2 then
            max 1 ((if (s.stats.processed : ℚ) /
                      ((s.stats.processed : ℚ) + (s.stats.failed : ℚ)) < 4/5 then
                      max 1 (n * 4 / 5) else n) * 7 / 10)
           else
            (if (s.stats.processed : ℚ) /
                  ((s.stats.processed : ℚ) + (s.stats.failed : ℚ)) < 4/5 then
              max 1 (n * 4 / 5) else n))
          s.queue.length := by
  simp only [LinkQueue.calculateAdaptiveBatchSize, natFloor_mul_four_fifths,
    natFloor_mul_seven_tenths]

/-- For a positive requested size, the adaptive batch size never exceeds it. -/
theorem calculateAdaptiveBatchSize_le (s : LinkQueue) (n : Nat) (hn : 1 ≤ n) :
    s.calculateAdaptiveBatchSize n ≤ n := by
  rw [calculateAdaptiveBatchSize_eq]
  split_ifs <;> omega

/-! ## C1 — deduplication in `addLinks` -/

/-- C1 (counterexample): the claimed invariant — no URL is ever both pending
and in-flight, and `addLinks` never appends a URL that is currently
pending — fails on the code.  `addLinks` filters only against the in-flight
set, so adding `"a"` twice leaves pending `["a", "a"]`, and after drawing a
batch of one, `"a"` is simultaneously pending and in-flight. -/
theorem addLinks_pending_duplicate_counterexample :
    (runOps LinkQueue.init [.addLinks ["a"], .addLinks ["a"]]).queue = ["a", "a"] ∧
    "a" ∈ (runOps LinkQueue.init
      [.addLinks ["a"], .addLinks ["a"], .getBatch 1]).queue ∧
    "a" ∈ (runOps LinkQueue.init
      [.addLinks ["a"], .addLinks ["a"], .getBatch 1]).processing := by
  decide

/-- C1 (amended): `addLinks` appends exactly the argument links that are not
currently in the in-flight set, leaving the in-flight set unchanged; in
particular no link that is in-flight at the time of the call is appended.
(It does not filter against the pending queue, so pending duplicates are
possible.) -/
theorem addLinks_filters_only_inflight (s : LinkQueue) (links : List String) :
    (s.addLinks links).queue =
      s.queue ++ links.filter (fun link => !(decide (link ∈ s.processing))) ∧
    (s.addLinks links).processing = s.processing ∧
    ∀ l, l ∈ s.processing →
      l ∉ links.filter (fun link => !(decide (link ∈ s.processing))) := by
  refine ⟨rfl, rfl, ?_⟩
  intro l hl hmem
  rw [List.mem_filter] at hmem
  simp only [Bool.not_eq_true', decide_eq_false_iff_not] at hmem
  exact hmem.2 hl

/-- C1 (witness): evaluating the amended theorem with `"a"` in-flight. -/
theorem addLinks_filters_only_inflight_witness :
    "a" ∉ (["a", "b"].filter
      (fun link => !(decide (link ∈ (((LinkQueue.init.addLinks ["a"]).getBatch 1).2).processing)))) :=
  (addLinks_filters_only_inflight ((LinkQueue.init.addLinks ["a"]).getBatch 1).2
    ["a", "b"]).2.2 "a" (by decide)

/-! ## C2 — the moving average of `markProcessed` -/

/-- C2 (counterexample): the claim predicts that from the initial state
`markProcessed(["x"], true, 100)` yields average
`(avg·processed_before + 100) / (processed_before + 1) = 100`; the code
increments `processed` before the division and yields 50. -/
theorem markProcessed_average_counterexample :
    (LinkQueue.init.markProcessed ["x"] true 100).stats.avgProcessingTime = 50 ∧
    (LinkQueue.init.markProcessed ["x"] true 100).stats.avgProcessingTime ≠
      (LinkQueue.init.stats.avgProcessingTime * (LinkQueue.init.stats.processed : ℚ) + 100) /
        ((LinkQueue.init.stats.processed : ℚ) + 1) := by
  have h : (LinkQueue.init.markProcessed ["x"] true 100).stats.avgProcessingTime = 50 := by
    simp [LinkQueue.markProcessed, LinkQueue.init]
    norm_num
  refine ⟨h, ?_⟩
  rw [h]
  norm_num [LinkQueue.init]

/-- C2 (amended): a successful `markProcessed` call first adds the batch
size to `processed` and then updates the average using the already
incremented count: `avg' = (avg·processed_after + elapsedMs) /
(processed_after + 1)`.  From the initial state, `markProcessed(["x"], true,
100)` therefore yields average 50 with `processed = 1`, and a subsequent
`markProcessed(["y"], true, 300)` yields average `(50·2 + 300)/3 = 400/3`
with `processed = 2`. -/
theorem markProcessed_average_post_increment (s : LinkQueue) (links : List String) (t : ℚ) :
    (s.markProcessed links true t).stats.processed = s.stats.processed + links.length ∧
    (s.markProcessed links true t).stats.avgProcessingTime =
      (s.stats.avgProcessingTime * ((s.stats.processed + links.length : Nat) : ℚ) + t) /
        (((s.stats.processed + links.length : Nat) : ℚ) + 1) ∧
    (LinkQueue.init.markProcessed ["x"] true 100).stats.avgProcessingTime = 50 ∧
    (LinkQueue.init.markProcessed ["x"] true 100).stats.processed = 1 ∧
    ((LinkQueue.init.markProcessed ["x"] true 100).markProcessed ["y"] true 300).stats.avgProcessingTime = 400 / 3 ∧
    ((LinkQueue.init.markProcessed ["x"] true 100).markProcessed ["y"] true 300).stats.processed = 2 := by
  refine ⟨rfl, rfl, ?_, rfl, ?_, rfl⟩
  · simp [LinkQueue.markProcessed, LinkQueue.init]
    norm_num
  · simp [LinkQueue.markProcessed, LinkQueue.init]
    norm_num

/-! ## C3 — `markComplete` on the collection loop's exit paths -/

/-- C3 (code bug): when every page fetch fails, `scrapeBookLinks` rethrows
the error and its `finally` block closes the browser, but
`linkQueue.markComplete()` — which the source only reaches after the loop
completes normally — is never called, so the completion flag stays false
(and `hasMore` would stay true forever).  On the normal exit path the flag
is set. -/
theorem scrapeBookLinks_error_skips_markComplete :
    (scrapeBookLinks (fun _ => Except.error (JsError.plain "net")) 5 LinkQueue.init).1 =
      Except.error (JsError.plain "net") ∧
    (scrapeBookLinks (fun _ => Except.error (JsError.plain "net")) 5 LinkQueue.init).2.1.isComplete = false ∧
    (scrapeBookLinks (fun _ => Except.error (JsError.plain "net")) 5 LinkQueue.init).2.1.hasMore = true ∧
    (scrapeBookLinks (fun _ => Except.error (JsError.plain "net")) 5 LinkQueue.init).2.2 = true ∧
    (scrapeBookLinks (fun _ => Except.ok ([], none)) 5 LinkQueue.init).2.1.isComplete = true :=
  ⟨rfl, rfl, rfl, rfl, rfl⟩

/-! ## C4 — `hasMore` -/

/-- C4: `hasMore` returns true exactly when the pending queue is nonempty,
or the completion flag is not set, or the in-flight set is nonempty;
equivalently it returns false exactly when pending is empty, the flag is
set, and nothing is in flight — so it flips to false precisely once
`markComplete` has run, pending is drained, and every drawn URL has been
reported back via `markProcessed`. -/
theorem hasMore_characterization (s : LinkQueue) :
    (s.hasMore = true ↔
      (0 < s.queue.length ∨ s.isComplete = false ∨ 0 < s.processing.card)) ∧
    (s.hasMore = false ↔
      (s.queue = [] ∧ s.isComplete = true ∧ s.processing = ∅)) := by
  constructor
  · simp [LinkQueue.hasMore, or_assoc]
  · simp only [LinkQueue.hasMore, Bool.or_eq_false_iff, decide_eq_false_iff_not,
      Bool.not_eq_false', not_lt, Nat.le_zero, List.length_eq_zero,
      Finset.card_eq_zero]
    tauto

/-- C4 (witness): the characterization evaluated on concrete states. -/
theorem hasMore_characterization_witness :
    LinkQueue.init.hasMore = true ∧ LinkQueue.init.markComplete.hasMore = false :=
  ⟨(hasMore_characterization LinkQueue.init).1.mpr (Or.inr (Or.inl rfl)),
   (hasMore_characterization LinkQueue.init.markComplete).2.mpr ⟨rfl, rfl, rfl⟩⟩

/-! ## C5 — adaptive batch sizing -/

/-- C5 (counterexample): in a reachable state with `processed = 0`,
`failed = 1` and ten pending URLs, the claim predicts a 20% shrink (at most
8 items from `getBatch 10`), but `calculateAdaptiveBatchSize` returns
`maxBatchSize` unreduced whenever `processed = 0`, so all 10 items are
returned. -/
theorem adaptive_size_zero_processed_counterexample :
    (runOps LinkQueue.init
      [.addLinks ["x"], .getBatch 1, .markProcessed ["x"] false 5,
       .addLinks ["a", "b", "c", "d", "e", "f", "g", "h", "i", "j"]]).stats.processed = 0 ∧
    (runOps LinkQueue.init
      [.addLinks ["x"], .getBatch 1, .markProcessed ["x"] false 5,
       .addLinks ["a", "b", "c", "d", "e", "f", "g", "h", "i", "j"]]).stats.failed = 1 ∧
    ((runOps LinkQueue.init
      [.addLinks ["x"], .getBatch 1, .markProcessed ["x"] false 5,
       .addLinks ["a", "b", "c", "d", "e", "f", "g", "h", "i", "j"]]).getBatch 10).1.length = 10 ∧
    ¬ ((runOps LinkQueue.init
      [.addLinks ["x"], .getBatch 1, .markProcessed ["x"] false 5,
       .addLinks ["a", "b", "c", "d", "e", "f", "g", "h", "i", "j"]]).getBatch 10).1.length ≤ 8 := by
  decide

/-- C5 (amended): `getBatch(maxSize)` returns `min(adaptiveSize, pending
length)` items, where the adaptive size is `maxSize` itself whenever
`processed = 0` — no shrink is applied then, even when `failed > 0` or the
in-flight load is high — and otherwise starts from `maxSize`, is reduced to
`max(1, ⌊size·0.8⌋)` when `processed/(processed+failed) < 0.8`, further to
`max(1, ⌊size·0.7⌋)` when the in-flight size exceeds `2·maxSize` (the two
reductions composing), and is finally capped at the pending length. -/
theorem getBatch_adaptive_size_characterization (s : LinkQueue) (n : Nat) :
    (s.getBatch n).1.length = min (s.calculateAdaptiveBatchSize n) s.queue.length ∧
    s.calculateAdaptiveBatchSize n =
      (if s.stats.processed = 0 then n
       else
        min
          (if s.processing.card > n * 2 then
            max 1 ((if (s.stats.processed : ℚ) /
                      ((s.stats.processed : ℚ) + (s.stats.failed : ℚ)) < 4/5 then
                      max 1 (n * 4 / 5) else n) * 7 / 10)
           else
            (if (s.stats.processed : ℚ) /
                  ((s.stats.processed : ℚ) + (s.stats.failed : ℚ)) < 4/5 then
              max 1 (n * 4 / 5) else n))
          s.queue.length) :=
  ⟨by simp [LinkQueue.getBatch], calculateAdaptiveBatchSize_eq s n⟩

/-! ## C6 — navigation retry, backoff and error propagation -/

/-- C6 (counterexample): when all three attempts fail with a plain driver
error, `navigateToUrl` consumes three tokens, sleeps 2000 ms and 4000 ms,
and then rethrows the last error unchanged — `executeOperation` hands the
caller that plain error, not a typed network error carrying the URL and
cause as the claim states. -/
theorem navigateToUrl_network_error_counterexample :
    navigateToUrl 3 (fun _ => NavAttempt.fail (JsError.plain "boom")) =
      { result := .error (some (JsError.plain "boom")), tokens := 3,
        delays := [2000, 4000] } ∧
    executeOperation 3 (fun _ => NavAttempt.fail (JsError.plain "boom"))
        (Except.ok (0 : Nat)) = .error (some (JsError.plain "boom")) ∧
    JsError.isNetwork (JsError.plain "boom") = false :=
  ⟨rfl, rfl, rfl⟩

/-- Unrolling the `navigateToUrl` retry loop when every attempt from `a` to
`a + r - 1` fails: one token per attempt, backoff
`min(1000·2^attempt, 10000)` between attempts, and the loop rethrows the
last attempt's error unchanged. -/
theorem navigateToUrlAux_all_fail (att : Nat → NavAttempt) (e : Nat → JsError) :
    ∀ r a, 1 ≤ r → (∀ i, a ≤ i → i < a + r → (att i).errorOf = some (e i)) →
    navigateToUrlAux att r a =
      { result := .error (some (e (a + r - 1))), tokens := r,
        delays := (List.range (r - 1)).map fun j => min (1000 * 2 ^ (a + j)) 10000 } := by
  intro r
  induction r with
  | zero => intro a h; omega
  | succ r ih =>
    intro a _ hall
    have ha : (att a).errorOf = some (e a) := hall a le_rfl (by omega)
    rcases r with _ | r
    · simp [navigateToUrlAux, ha]
    · rw [show r + 1 + 1 = r + 2 from rfl]
      have hrec := ih (a + 1) (by omega) (fun i h1 h2 => hall i (by omega) (by omega))
      have hidx : a + 1 + (r + 1) - 1 = a + (r + 2) - 1 := by omega
      have harg : ∀ j, a + 1 + j = a + (j + 1) := fun j => by omega
      simp only [navigateToUrlAux, ha, hrec]
      rw [hidx, show r + 2 - 1 = r + 1 from rfl, show r + 1 - 1 = r from rfl]
      simp only [List.range_succ_eq_map, List.map_cons, List.map_map,
        NavRun.mk.injEq, true_and, Nat.add_zero, List.cons.injEq]
      refine List.map_congr_left ?_
      intro j hj
      simp [Function.comp, harg j]

/-- C6 (amended): for any `maxRetries ≥ 1`, if every navigation attempt
fails (a closed page counting as a failed attempt with its own plain
error), then `navigateToUrl` consumes one rate-limit token per attempt,
sleeps `min(1000·2^attempt, 10000)` ms between consecutive attempts, and
after exhausting the retries the *last underlying error itself* propagates
— `executeOperation` passes it to the caller as-is, with no typed network
error wrapping the URL and cause. -/
theorem navigateToUrl_raw_error_propagation (m : Nat) (hm : 1 ≤ m)
    (att : Nat → NavAttempt) (e : Nat → JsError)
    (h : ∀ i, 1 ≤ i → i ≤ m → (att i).errorOf = some (e i))
    (op : Except JsError Nat) :
    navigateToUrl m att =
      { result := .error (some (e m)), tokens := m,
        delays := (List.range (m - 1)).map fun j => min (1000 * 2 ^ (1 + j)) 10000 } ∧
    executeOperation m att op = .error (some (e m)) := by
  have haux := navigateToUrlAux_all_fail att e m 1 hm
    (fun i h1 h2 => h i h1 (by omega))
  have hidx : 1 + m - 1 = m := by omega
  rw [hidx] at haux
  refine ⟨haux, ?_⟩
  simp only [executeOperation, navigateToUrl, haux]

/-- C6 (witness): attempt 1 finds the pooled page closed (a retryable
failure), attempt 2's `goto` throws; with `maxRetries = 2` the caller
receives the raw second error after one 2000 ms backoff. -/
theorem navigateToUrl_raw_error_propagation_witness :
    navigateToUrl 2 attClosedThenFail =
      { result := .error (some (JsError.plain "x")), tokens := 2,
        delays := [2000] } ∧
    executeOperation 2 attClosedThenFail (Except.ok (0 : Nat)) =
      .error (some (JsError.plain "x")) := by
  have h := navigateToUrl_raw_error_propagation 2 (by norm_num)
    attClosedThenFail errClosedThenFail
    (by intro i h1 h2; interval_cases i <;> rfl) (Except.ok 0)
  simpa [errClosedThenFail] using h

/-! ## C7 — `getBatch` moves a FIFO prefix into the in-flight set -/

/-- C7 (counterexample): in a reachable state with `processed = 1`,
`failed = 4` (success rate 0.2) and one pending URL, `getBatch(0)` returns
one item — more than the requested 0 — because the 20% reduction is clamped
below at 1. -/
theorem getBatch_zero_counterexample :
    ((runOps LinkQueue.init
      [.addLinks ["a", "b", "c", "d", "e", "f"], .getBatch 5,
       .markProcessed ["a"] true 10,
       .markProcessed ["b", "c", "d", "e"] false 10]).getBatch 0).1.length = 1 ∧
    ¬ ((runOps LinkQueue.init
      [.addLinks ["a", "b", "c", "d", "e", "f"], .getBatch 5,
       .markProcessed ["a"] true 10,
       .markProcessed ["b", "c", "d", "e"] false 10]).getBatch 0).1.length ≤ 0 := by
  have h : ((runOps LinkQueue.init
      [.addLinks ["a", "b", "c", "d", "e", "f"], .getBatch 5,
       .markProcessed ["a"] true 10,
       .markProcessed ["b", "c", "d", "e"] false 10]).getBatch 0).1.length = 1 := by
    simp [runOps, applyOp, LinkQueue.addLinks, LinkQueue.getBatch,
      LinkQueue.markProcessed, LinkQueue.init, LinkQueue.calculateAdaptiveBatchSize]
    norm_num
  exact ⟨h, by rw [h]; omega⟩

/-- C7 (amended): for every requested size `n ≥ 1`, `getBatch(n)` returns at
most `n` items; the returned batch is the first-`k` prefix of pending in
FIFO order, those items are removed from pending and added to the in-flight
set in the same operation, and when pending is empty the batch is empty and
the state is unchanged.  (At `n = 0` the minimum-1 clamp of the adaptive
size can return one item, which is why `n ≥ 1` is required.) -/
theorem getBatch_fifo_front (s : LinkQueue) (n : Nat) (hn : 1 ≤ n) :
    (s.getBatch n).1.length ≤ n ∧
    (s.getBatch n).1 = s.queue.take ((s.getBatch n).1.length) ∧
    (s.getBatch n).2.queue = s.queue.drop ((s.getBatch n).1.length) ∧
    (s.getBatch n).2.processing = s.processing ∪ (s.getBatch n).1.toFinset ∧
    (s.queue = [] → (s.getBatch n).1 = [] ∧ (s.getBatch n).2 = s) := by
  have hb : (s.getBatch n).1 = s.queue.take (s.calculateAdaptiveBatchSize n) := rfl
  have hq2 : (s.getBatch n).2.queue = s.queue.drop (s.calculateAdaptiveBatchSize n) := rfl
  have hlen : (s.getBatch n).1.length = min (s.calculateAdaptiveBatchSize n) s.queue.length := by
    rw [hb, List.length_take]
  refine ⟨?_, ?_, ?_, ?_, ?_⟩
  · rw [hlen]
    exact le_trans (Nat.min_le_left _ _) (calculateAdaptiveBatchSize_le s n hn)
  · rw [hlen, hb]
    rcases Nat.le_total (s.calculateAdaptiveBatchSize n) s.queue.length with hle | hle
    · rw [Nat.min_eq_left hle]
    · rw [Nat.min_eq_right hle, List.take_length,
        List.take_of_length_le hle]
  · rw [hlen, hq2]
    rcases Nat.le_total (s.calculateAdaptiveBatchSize n) s.queue.length with hle | hle
    · rw [Nat.min_eq_left hle]
    · rw [Nat.min_eq_right hle, List.drop_length,
        List.drop_eq_nil_of_le hle]
  · exact foldl_insert_eq_union _ _
  · intro hq
    have hbe : (s.getBatch n).1 = [] := by
      rw [hb, hq, List.take_nil]
    refine ⟨hbe, ?_⟩
    cases s with
    | mk queue processing isComplete stats =>
      simp only at hq
      simp [LinkQueue.getBatch, hq, foldl_insert_eq_union]

/-- C7 (witness): the amended theorem evaluated at a two-element queue with
`n = 1`, and at the empty initial queue with `n = 3`. -/
theorem getBatch_fifo_front_witness :
    ((LinkQueue.init.addLinks ["a", "b"]).getBatch 1).1.length ≤ 1 ∧
    (LinkQueue.init.getBatch 3).1 = [] ∧ (LinkQueue.init.getBatch 3).2 = LinkQueue.init :=
  ⟨(getBatch_fifo_front (LinkQueue.init.addLinks ["a", "b"]) 1 (by norm_num)).1,
   (getBatch_fifo_front LinkQueue.init 3 (by norm_num)).2.2.2.2 rfl⟩

/-! ## C8 — the generic retry helper -/

/-- C8: with `maxAttempts = 3`, an operation failing on attempts 1 and 2 and
succeeding on attempt 3 makes `retry` return the third attempt's value,
after sleeping `delayMs` and then `delayMs · backoffFactor`; an operation
failing on all three attempts makes `retry` throw a `ScrapingError` whose
message reports 3 attempts and which carries the context and the last
underlying error, after the same two backoff delays. -/
theorem retry_backoff_spec {α : Type} (op : Nat → Except JsError α) (d b : ℚ)
    (ctx : String) (e1 e2 e3 : JsError) (v : α)
    (h1 : op 1 = .error e1) (h2 : op 2 = .error e2) :
    (op 3 = .ok v →
      retry op { maxAttempts := 3, delayMs := d, backoffFactor := b } ctx =
        (.ok v, [d, d * b])) ∧
    (op 3 = .error e3 →
      retry op { maxAttempts := 3, delayMs := d, backoffFactor := b } ctx =
        (.error (.scraping ("Failed after 3 attempts: " ++ ctx) ctx e3),
          [d, d * b])) := by
  have hmsg : ("Failed after " ++ toString 3 ++ " attempts: " : String) =
      "Failed after 3 attempts: " := rfl
  constructor
  · intro h3
    simp [retry, retryAux, h1, h2, h3]
  · intro h3
    simp [retry, retryAux, h1, h2, h3, hmsg]

/-- C8 (witness): the two branches evaluated on concrete operations. -/
theorem retry_backoff_spec_witness :
    retry opFailTwice { maxAttempts := 3, delayMs := 500, backoffFactor := 3/2 } "u" =
      (.ok 7, [500, 750]) ∧
    retry opAlwaysFail { maxAttempts := 3, delayMs := 1000, backoffFactor := 2 } "u" =
      (.error (.scraping "Failed after 3 attempts: u" "u" (.plain "x")),
        [1000, 2000]) := by
  constructor
  · have h := (retry_backoff_spec opFailTwice 500 (3/2) "u" (.plain "x") (.plain "x")
      (.plain "z") 7 rfl rfl).1 rfl
    norm_num at h
    exact h
  · have h := (retry_backoff_spec opAlwaysFail 1000 2 "u" (.plain "x") (.plain "x")
      (.plain "x") 0 rfl rfl).2 rfl
    norm_num at h
    exact h

/-! ## C9 — one failed URL fails the whole batch's accounting -/

/-- C9: if at least one URL of a batch fails, `processBatch` calls
`markProcessed` once with `success = false` for the entire batch, so the
whole batch size is added to `failed`, `processed` is unchanged, and the
moving average of processing time is not updated — even though the records
of URLs that succeeded in the same round have already been written to the
sink. -/
theorem batch_failure_counts_whole_batch (links : List String)
    (outcome : String → UrlOutcome) (q : LinkQueue) (t : ℚ) (u : String)
    (hu : u ∈ links) (hf : outcome u = .failed) :
    (processBatchModel links outcome q t).1.stats.failed =
      q.stats.failed + links.length ∧
    (processBatchModel links outcome q t).1.stats.processed = q.stats.processed ∧
    (processBatchModel links outcome q t).1.stats.avgProcessingTime =
      q.stats.avgProcessingTime := by
  have hcond : ¬ ∀ a ∈ links, ¬ outcome a = UrlOutcome.failed :=
    fun hall => hall u hu hf
  simp [processBatchModel, LinkQueue.markProcessed, hcond]

/-- C9 (witness): a batch `["g", "b"]` in which `"g"` succeeds with a record
(which is written to the sink) and `"b"` fails: both URLs are counted into
`failed`. -/
theorem batch_failure_counts_whole_batch_witness :
    (processBatchModel ["g", "b"] outcomeOneGood LinkQueue.init 0).1.stats.failed = 0 + 2 ∧
    (processBatchModel ["g", "b"] outcomeOneGood LinkQueue.init 0).1.stats.processed = 0 ∧
    (processBatchModel ["g", "b"] outcomeOneGood LinkQueue.init 0).1.stats.avgProcessingTime = 0 ∧
    (processBatchModel ["g", "b"] outcomeOneGood LinkQueue.init 0).2 = [goodRecord] := by
  have h := batch_failure_counts_whole_batch ["g", "b"] outcomeOneGood LinkQueue.init 0 "b"
    (by decide) (by decide)
  exact ⟨h.1, h.2.1, h.2.2, rfl⟩

/-! ## C10 — skipped pages produce no record yet count as successes -/

/-- C10: for a detail page with nonempty title and author whose
recommendations header does not start with `'To βιβλίο'` or whose computed
count is 0, `extractBookDetails` returns `null` rather than a record; in
`processBatch` such a URL resolves as `{success: true, skipped: true}`, so
no record for it is written to the sink, and in a batch with no failing URL
the whole batch — the skipped URL included — is counted into `processed`,
not `failed`. -/
theorem skipped_page_counted_success (url : String) (d : PageEval)
    (ht : d.title ≠ "") (ha : d.author ≠ "")
    (hrec : strStartsWith d.recHeader "To βιβλίο" = false ∨ d.recCount = 0)
    (links : List String) (outcome : String → UrlOutcome) (q : LinkQueue) (t : ℚ)
    (hmem : url ∈ links) (hout : outcome url = .skipped)
    (hurl : ∀ x dd, outcome x = .ok dd → dd.url = x)
    (hnf : ∀ x, x ∈ links → outcome x ≠ .failed) :
    extractBookDetails url d = .ok none ∧
    (∀ bd, bd ∈ (processBatchModel links outcome q t).2 → bd.url ≠ url) ∧
    (processBatchModel links outcome q t).1.stats.processed =
      q.stats.processed + links.length ∧
    (processBatchModel links outcome q t).1.stats.failed = q.stats.failed := by
  have hnil : links.filter (fun x => decide (outcome x = .failed)) = [] := by
    rw [List.filter_eq_nil_iff]
    intro a hal
    simp [hnf a hal]
  refine ⟨?_, ?_, ?_, ?_⟩
  · unfold extractBookDetails
    rw [if_neg (by simp [ht, ha])]
    rcases hrec with h | h
    · simp [h]
    · cases hsw : strStartsWith d.recHeader "To βιβλίο" <;> simp [h]
  · intro bd hbd
    simp only [processBatchModel, List.mem_filterMap] at hbd
    obtain ⟨x, hx, hxa⟩ := hbd
    have hox : outcome x = .ok bd := by
      cases ho : outcome x with
      | ok dd =>
        rw [ho] at hxa
        simp only [Option.some.injEq] at hxa
        subst hxa
        rfl
      | skipped =>
        rw [ho] at hxa
        exact absurd hxa (by simp)
      | failed =>
        rw [ho] at hxa
        exact absurd hxa (by simp)
    intro hbu
    have hxu : x = url := by rw [← hurl x bd hox, hbu]
    rw [hxu, hout] at hox
    exact UrlOutcome.noConfusion hox
  · simp [processBatchModel, LinkQueue.markProcessed, hnil]
  · simp [processBatchModel, LinkQueue.markProcessed, hnil]

/-- C10 (witness): a page whose header is not the recommendations header
extracts to `null`, and a batch consisting of that one skipped URL writes
nothing to the sink while counting the URL into `processed`. -/
theorem skipped_page_counted_success_witness :
    extractBookDetails "u"
      { title := "T", author := "A", recHeader := "Άλλο", recCount := 5 } = .ok none ∧
    (processBatchModel ["u"] outcomeAllSkipped LinkQueue.init 0).2 = [] ∧
    (processBatchModel ["u"] outcomeAllSkipped LinkQueue.init 0).1.stats.processed = 0 + 1 ∧
    (processBatchModel ["u"] outcomeAllSkipped LinkQueue.init 0).1.stats.failed = 0 := by
  have h := skipped_page_counted_success "u"
    { title := "T", author := "A", recHeader := "Άλλο", recCount := 5 }
    (by decide) (by decide) (Or.inl (by decide)) ["u"] outcomeAllSkipped
    LinkQueue.init 0 (by decide) rfl
    (fun x dd hx => nomatch hx) (fun x _ hx => nomatch hx)
  exact ⟨h.1, rfl, h.2.2.1, h.2.2.2⟩

end Polit
